import Mathlib

/-!
Verification of the amaze repository fragment: the Robot BuildData string
codec, the point-mass robot kinematics, and the controller registry with its
zip-archive persistence. Definitions are shallow embeddings of the Python
source in src/amaze/simu/robot.py and src/amaze/simu/controllers/control.py.
Python exceptions are modelled with Except; Python ints with Nat; Python
floats with the rationals.
-/

namespace Amaze

/-- Input type enum from amaze.simu.types (DISCRETE, CONTINUOUS). -/
inductive InputType
  | DISCRETE
  | CONTINUOUS
deriving DecidableEq, Repr

/-- Output type enum from amaze.simu.types (DISCRETE, CONTINUOUS). -/
inductive OutputType
  | DISCRETE
  | CONTINUOUS
deriving DecidableEq, Repr

/-- Robot.BuildData from robot.py with its dataclass field defaults.
The control_data dict of construction parameters is modelled as an
association list with opaque string values. -/
structure BuildData where
  inputs : InputType := InputType.DISCRETE
  outputs : OutputType := OutputType.DISCRETE
  vision : Nat := 15
  control : String := "random"
  control_data : List (String × String) := []
deriving DecidableEq, Repr

/-- Python exceptions raised by the embedded fragment. The two ValueError
cases of BuildData.from_string are distinguished by their message. -/
inductive PyError
  | indexError
  | assertionError
  | keyError
  | typeError
  | valueErrorHybrid
  | valueErrorEvenVision
deriving DecidableEq, Repr

/-- Decimal digit character of a value below ten, as produced by Python str. -/
def digitChar (n : Nat) : Char :=
  if n = 0 then '0' else if n = 1 then '1' else if n = 2 then '2'
  else if n = 3 then '3' else if n = 4 then '4' else if n = 5 then '5'
  else if n = 6 then '6' else if n = 7 then '7' else if n = 8 then '8'
  else '9'

/-- Fuel-driven decimal rendering of a natural number, most significant digit
first; the fuel argument makes the recursion structural. -/
def natDigitsAux : Nat → Nat → List Char
  | 0, _ => []
  | fuel + 1, n =>
    if n < 10 then [digitChar n]
    else natDigitsAux fuel (n / 10) ++ [digitChar (n % 10)]

/-- Decimal digit list of a natural number, as produced by Python str. -/
def natDigits (n : Nat) : List Char := natDigitsAux (n + 1) n

/-- Python int applied to a string of decimal digits, as a fold. -/
def pyInt (cs : List Char) : Nat :=
  cs.foldl (fun a c => 10 * a + (c.toNat - 48)) 0

/-- The private __string_to_input map of Robot.BuildData: first letter of the
enum member name back to the member; any other key is a Python KeyError. -/
def string_to_input : Char → Except PyError InputType
  | 'D' => .ok InputType.DISCRETE
  | 'C' => .ok InputType.CONTINUOUS
  | _ => .error .keyError

/-- The private __string_to_output map of Robot.BuildData. -/
def string_to_output : Char → Except PyError OutputType
  | 'D' => .ok OutputType.DISCRETE
  | 'C' => .ok OutputType.CONTINUOUS
  | _ => .error .keyError

/-- The private __inputs_to_string map: first letter of the member name. -/
def inputs_to_string : InputType → Char
  | InputType.DISCRETE => 'D'
  | InputType.CONTINUOUS => 'C'

/-- The private __outputs_to_string map: first letter of the member name. -/
def outputs_to_string : OutputType → Char
  | OutputType.DISCRETE => 'D'
  | OutputType.CONTINUOUS => 'C'

/-- The io-decoding step of Robot.BuildData.from_string. When the second
character is alphabetic the code is the two-letter pair form, decoded through
the string-to-enum maps with the hybrid (DISCRETE in, CONTINUOUS out) check;
otherwise the first character alone is a shorthand looked up in the literal
dict with keys D, H, C. -/
def parseIO (c0 c1 : Char) : Except PyError BuildData :=
  if c1.isAlpha then
    match string_to_input c0 with
    | .error e => .error e
    | .ok i =>
      match string_to_output c1 with
      | .error e => .error e
      | .ok o =>
        if i = InputType.DISCRETE ∧ o = OutputType.CONTINUOUS then
          .error .valueErrorHybrid
        else .ok { inputs := i, outputs := o }
  else
    match c0 with
    | 'D' => .ok { inputs := InputType.DISCRETE, outputs := OutputType.DISCRETE }
    | 'H' => .ok { inputs := InputType.CONTINUOUS, outputs := OutputType.DISCRETE }
    | 'C' => .ok { inputs := InputType.CONTINUOUS, outputs := OutputType.CONTINUOUS }
    | _ => .error .keyError

/-- Robot.BuildData.from_string from robot.py, line for line: indexing
robot[0] and robot[1] raises IndexError on too-short input (before the
membership assert for robot[0], after it for robot[1]); the three asserts,
the ix offset (1 plus robot[1].isalpha()), the io decoding, and the vision
block guarded by the chained comparison ix < len(robot) > 2, which reads as
ix < len(robot) and len(robot) > 2 in Python. -/
def from_string (robot : String) : Except PyError BuildData :=
  match robot.data[0]? with
  | none => .error .indexError
  | some c0 =>
    if c0 = 'D' ∨ c0 = 'C' ∨ c0 = 'H' then
      match robot.data[1]? with
      | none => .error .indexError
      | some c1 =>
        if (c1 = 'D' ∨ c1 = 'C') ∨ c1.isDigit then
          if (robot.data.drop 2).all Char.isDigit then
            let ix : Nat := if c1.isAlpha then 2 else 1
            match parseIO c0 c1 with
            | .error e => .error e
            | .ok bd =>
              if bd.inputs = InputType.CONTINUOUS ∧
                  ix < robot.data.length ∧ 2 < robot.data.length then
                let vision := pyInt (robot.data.drop ix)
                if vision % 2 ≠ 1 then .error .valueErrorEvenVision
                else .ok { bd with vision := vision }
              else .ok bd
          else .error .assertionError
        else .error .assertionError
    else .error .assertionError

/-- Robot.BuildData.to_string from robot.py: the two enum letters, then the
decimal digits of vision exactly when inputs is CONTINUOUS. -/
def to_string (bd : BuildData) : String :=
  let s := [inputs_to_string bd.inputs, outputs_to_string bd.outputs]
  String.mk (if bd.inputs = InputType.CONTINUOUS then s ++ natDigits bd.vision else s)

lemma string_data_mk (cs : List Char) : (String.mk cs).data = cs := rfl

instance {ε α : Type} [DecidableEq ε] [DecidableEq α] : DecidableEq (Except ε α) := fun x y =>
  match x, y with
  | Except.ok a, Except.ok b =>
    if h : a = b then isTrue (by rw [h]) else
      isFalse (fun hc => h (Except.ok.inj hc))
  | Except.error a, Except.error b =>
    if h : a = b then isTrue (by rw [h]) else
      isFalse (fun hc => h (Except.error.inj hc))
  | Except.ok _, Except.error _ => isFalse (fun hc => Except.noConfusion hc)
  | Except.error _, Except.ok _ => isFalse (fun hc => Except.noConfusion hc)

example : from_string "D" = .error .indexError := by decide
example : from_string "C9" =
    .ok { inputs := InputType.CONTINUOUS, outputs := OutputType.CONTINUOUS, vision := 15 } := by
  decide
example : from_string "CC9" =
    .ok { inputs := InputType.CONTINUOUS, outputs := OutputType.CONTINUOUS, vision := 9 } := by
  decide
example : from_string "DC" = .error .valueErrorHybrid := by decide
example : from_string "CD" =
    .ok { inputs := InputType.CONTINUOUS, outputs := OutputType.DISCRETE, vision := 15 } := by
  decide
example : from_string "C4" =
    .ok { inputs := InputType.CONTINUOUS, outputs := OutputType.CONTINUOUS, vision := 15 } := by
  decide
example : from_string "C11" =
    .ok { inputs := InputType.CONTINUOUS, outputs := OutputType.CONTINUOUS, vision := 11 } := by
  decide
example : from_string "CC4" = .error .valueErrorEvenVision := by decide
example : from_string "DD4" = .ok {} := by decide
example : from_string "D3" = .ok {} := by decide
example : from_string "HD" = .error .keyError := by decide
example : to_string {} = "DD" := by decide
example : to_string { inputs := InputType.CONTINUOUS, outputs := OutputType.CONTINUOUS, vision := 9 } = "CC9" := by decide

lemma digitChar_isDigit (n : Nat) : (digitChar n).isDigit = true := by
  unfold digitChar; split_ifs <;> rfl

lemma digitChar_toNat (n : Nat) (h : n < 10) : (digitChar n).toNat = 48 + n := by
  interval_cases n <;> rfl

lemma pyInt_append_digit (cs : List Char) (c : Char) :
    pyInt (cs ++ [c]) = 10 * pyInt cs + (c.toNat - 48) := by
  simp [pyInt, List.foldl_append]

lemma natDigitsAux_spec (fuel : Nat) : ∀ n, n < fuel →
    natDigitsAux fuel n ≠ [] ∧ (natDigitsAux fuel n).all Char.isDigit = true ∧
      pyInt (natDigitsAux fuel n) = n := by
  induction fuel with
  | zero => intro n h; omega
  | succ fuel ih =>
    intro n h
    unfold natDigitsAux
    by_cases h10 : n < 10
    · refine ⟨by simp [h10], ?_, ?_⟩
      · simp [h10, digitChar_isDigit]
      · simp [h10, pyInt, digitChar_toNat n h10]
    · have hdiv : n / 10 < fuel := by
        have := Nat.div_lt_self (by omega : 0 < n) (by omega : 1 < 10)
        omega
      obtain ⟨hne, hdig, hval⟩ := ih (n / 10) hdiv
      rw [if_neg h10]
      refine ⟨by simp, ?_, ?_⟩
      · simp [List.all_append, hdig, digitChar_isDigit]
      · rw [pyInt_append_digit, hval, digitChar_toNat (n % 10) (Nat.mod_lt n (by omega))]
        omega

lemma natDigits_spec (n : Nat) :
    natDigits n ≠ [] ∧ (natDigits n).all Char.isDigit = true ∧ pyInt (natDigits n) = n :=
  natDigitsAux_spec (n + 1) n (Nat.lt_succ_self n)

lemma isDigit_not_isAlpha (c : Char) (h : c.isDigit = true) : c.isAlpha = false := by
  simp only [Char.isDigit, Bool.and_eq_true, decide_eq_true_eq] at h
  obtain ⟨h1, h2⟩ := h
  have h2n : c.val.toNat ≤ 57 := h2
  simp only [Char.isAlpha, Char.isUpper, Char.isLower, Bool.or_eq_false_iff,
    Bool.and_eq_false_iff, decide_eq_false_iff_not]
  refine ⟨Or.inl fun hc => ?_, Or.inl fun hc => ?_⟩
  · have : (65 : Nat) ≤ c.val.toNat := hc
    omega
  · have : (97 : Nat) ≤ c.val.toNat := hc
    omega

/-- A 2D vector over the rationals; Pos and Vec from amaze.simu.pos are both
plain 2D points. Python float coordinates are modelled by the rationals. -/
structure Vec where
  x : ℚ
  y : ℚ
deriving DecidableEq, Repr

/-- Vec.null from amaze.simu.pos: the zero vector. -/
def Vec.null : Vec := ⟨0, 0⟩

instance : Add Vec := ⟨fun a b => ⟨a.x + b.x, a.y + b.y⟩⟩

instance : SMul ℚ Vec := ⟨fun q v => ⟨q * v.x, q * v.y⟩⟩

/-- Squared Euclidean length. Modelled from the spec: the source compares the
Euclidean magnitude of the velocity against a nonnegative bound; the model
compares squares, which is an equivalent order on nonnegative reals and keeps
the definition inside the rationals. -/
def Vec.sqLength (v : Vec) : ℚ := v.x * v.x + v.y * v.y

lemma vec_smul_def (q : ℚ) (v : Vec) : q • v = ⟨q * v.x, q * v.y⟩ := rfl

lemma vec_add_def (a b : Vec) : a + b = ⟨a.x + b.x, a.y + b.y⟩ := rfl

/-- Robot.RADIUS from robot.py. -/
def RADIUS : ℚ := 1 / 10

/-- Robot.INERTIAL_LOSS from robot.py. -/
def INERTIAL_LOSS : ℚ := 1 / 2

/-- Robot.ACCELERATION_SCALE from robot.py. -/
def ACCELERATION_SCALE : ℚ := 1 / 2

/-- The mutable state of a Robot instance after reset: its shared BuildData,
position, previous aligned cell, velocity, acceleration and running reward. -/
structure Robot where
  data : BuildData
  pos : Vec
  prev_cell : Int × Int
  vel : Vec
  acc : Vec
  reward : ℚ
deriving DecidableEq, Repr

/-- Robot.next_position from robot.py: assigns acc and vel on the instance
(the first component is the updated robot) and returns the proposed position
pos + dt * vel without committing it. The magnitude comparison of the source
is rendered as the equivalent comparison of squares. -/
def Robot.next_position (r : Robot) (action : Vec) (dt : ℚ) : Robot × Vec :=
  let acc := ACCELERATION_SCALE • action
  let vel := (1 - INERTIAL_LOSS * dt) • r.vel + dt • acc
  let vel :=
    if vel.sqLength < (min (1 / 100) (ACCELERATION_SCALE / 2)) ^ 2 then Vec.null
    else vel
  ({ r with acc := acc, vel := vel }, r.pos + dt • vel)

/-- Values stored in an infos dict. Modelled from the spec: infos is a JSON
mapping of arbitrary metadata whose values are opaque to save and load, so
values are modelled as strings. -/
abbrev JValue := String

/-- A Python dict as an insertion-ordered association list with unique keys
maintained by dictSet. -/
abbrev Dict := List (String × JValue)

/-- Assignment d[k] = v on a Python dict: replaces the value in place when
the key is present, appends the pair otherwise. -/
def dictSet (d : Dict) (k : String) (v : JValue) : Dict :=
  if d.any (fun p => p.1 == k) then
    d.map (fun p => if p.1 == k then (k, v) else p)
  else d ++ [(k, v)]

/-- Python dict.update: folds assignment over the right operand. -/
def dictUpdate (d m : Dict) : Dict := m.foldl (fun acc p => dictSet acc p.1 p.2) d

/-- Python concrete classes of controllers: the three registered classes of
control.py plus strict subclasses of an existing class, which are distinct
dictionary keys from their parents. -/
inductive PyClass
  | RandomController
  | KeyboardController
  | TabularController
  | Subclass (parent : PyClass) (sub_name : String)
deriving DecidableEq, Repr

/-- The CONTROLLERS registry of control.py. -/
def CONTROLLERS : List (String × PyClass) :=
  [("random", PyClass.RandomController),
   ("keyboard", PyClass.KeyboardController),
   ("tabular", PyClass.TabularController)]

/-- Whether a class is a strict subclass of another, following parent links. -/
def strictSubclassOf : PyClass → PyClass → Bool
  | PyClass.Subclass p _, q => p == q || strictSubclassOf p q
  | _, _ => false

/-- A controller instance. Modelled from the spec: a controller exposes its
concrete class, an infos metadata mapping, and kind-specific archive entries
written by its own serialization routine. -/
structure Controller where
  cls : PyClass
  infos : Dict
  payload : List (String × String)
deriving DecidableEq, Repr

/-- An entry of the zip archive: plain text (controller_class and the
kind-specific payload) or a JSON-serialized dict (infos). -/
inductive Entry
  | text (s : String)
  | json (d : Dict)
deriving DecidableEq, Repr

/-- A zip archive as the ordered list of written entries. -/
abbrev Archive := List (String × Entry)

/-- Reading a named entry from a zip archive; with duplicate names the last
written entry wins, as in ZipFile NameToInfo. -/
def archiveRead (a : Archive) (k : String) : Option Entry := List.lookup k a.reverse

/-- Modelled from the spec: controller.save_to_archive writes the
kind-specific entries of the controller into the archive. -/
def save_to_archive (c : Controller) (a : Archive) : Archive :=
  a ++ c.payload.map (fun p => (p.1, Entry.text p.2))

/-- Modelled from the spec: the classmethod load_from_archive of a registered
class reconstructs an instance from the kind-specific entries; the generic
load routine then attaches the stored infos. -/
def load_from_archive (cls : PyClass) (a : Archive) : Controller :=
  { cls := cls, infos := [],
    payload := (a.filter (fun p => p.1 ≠ "controller_class" ∧ p.1 ≠ "infos")).filterMap
      (fun p => match p.2 with | Entry.text s => some (p.1, s) | Entry.json _ => none) }

/-- A pathlib.Path value, reduced to the parts save manipulates: the stem and
the suffix (extension). -/
structure Path where
  stem : String
  suffix : String
deriving DecidableEq, Repr

/-- The reverse lookup dict built by save in control.py. -/
def reverse_map : List (PyClass × String) := CONTROLLERS.map (fun p => (p.2, p.1))

/-- The save function of control.py: reverse lookup of the exact concrete
class (AssertionError when absent), suffix normalization to .zip, then the
archive is written: controller_class, the controller payload, and infos,
which is controller.infos copied and updated with the infos argument -
dict.update(None) raises TypeError when the argument is omitted. Returns the
normalized path together with the written archive. -/
def save (controller : Controller) (path : Path) (infos : Option Dict) :
    Except PyError (Path × Archive) :=
  match List.lookup controller.cls reverse_map with
  | none => .error .assertionError
  | some controller_class =>
    let path := if path.suffix ≠ ".zip" then { path with suffix := ".zip" } else path
    let archive : Archive := [("controller_class", Entry.text controller_class)]
    let archive := save_to_archive controller archive
    match infos with
    | none => .error .typeError
    | some m =>
      let merged := dictUpdate controller.infos m
      .ok (path, archive ++ [("infos", Entry.json merged)])

/-- The load function of control.py: reads controller_class, looks the kind
up in the registry (KeyError when unknown), delegates reconstruction to the
class, then attaches the stored infos dict to the instance. -/
def load (a : Archive) : Except PyError Controller :=
  match archiveRead a "controller_class" with
  | none => .error .keyError
  | some (Entry.json _) => .error .typeError
  | some (Entry.text controller_class) =>
    match List.lookup controller_class CONTROLLERS with
    | none => .error .keyError
    | some cls =>
      let c := load_from_archive cls a
      match archiveRead a "infos" with
      | none => .error .keyError
      | some (Entry.text _) => .error .typeError
      | some (Entry.json i) => .ok { c with infos := i }

/-- Shallow merge as the spec words it: the value for a key is the one from
the caller-supplied overlay when present, else the one from the base dict. -/
def shallowMerge (base overlay : Dict) (k : String) : Option JValue :=
  match List.lookup k overlay with
  | some v => some v
  | none => List.lookup k base

lemma lookup_map_replace_same (d : Dict) (k : String) (v : JValue)
    (hany : d.any (fun p => p.1 == k) = true) :
    List.lookup k (d.map (fun p => if p.1 == k then (k, v) else p)) = some v := by
  induction d with
  | nil => simp at hany
  | cons a t ih =>
    obtain ⟨k1, v1⟩ := a
    by_cases hk : k1 = k
    · subst hk
      simp [List.lookup_cons]
    · have hb : (k1 == k) = false := by simp [hk]
      have hb2 : (k == k1) = false := by simp [Ne.symm hk]
      simp only [List.any_cons, hb, Bool.false_or] at hany
      simp only [List.map_cons, hb, Bool.false_eq_true, if_false, List.lookup_cons, hb2,
        cond_false]
      exact ih hany

lemma lookup_map_replace_other (d : Dict) (k k2 : String) (v : JValue) (hne : k ≠ k2) :
    List.lookup k (d.map (fun p => if p.1 == k2 then (k2, v) else p)) = List.lookup k d := by
  have hb : (k == k2) = false := by simp [hne]
  induction d with
  | nil => rfl
  | cons a t ih =>
    obtain ⟨k1, v1⟩ := a
    by_cases hk : k1 = k2
    · subst hk
      simp only [List.map_cons, beq_self_eq_true, if_true, List.lookup_cons, hb, cond_false, ih]
    · have hbk : (k1 == k2) = false := by simp [hk]
      simp only [List.map_cons, hbk, Bool.false_eq_true, if_false, List.lookup_cons, ih]

lemma lookup_dictSet_same (d : Dict) (k : String) (v : JValue) :
    List.lookup k (dictSet d k v) = some v := by
  unfold dictSet
  split_ifs with hany
  · exact lookup_map_replace_same d k v hany
  · have hnone : List.lookup k d = none := by
      rw [List.lookup_eq_none_iff]
      intro p hp
      simp only [List.any_eq_true, not_exists, not_and] at hany
      simpa using fun hc => hany p hp (by simp [hc])
    rw [List.lookup_append, hnone]
    simp

lemma lookup_dictSet_other (d : Dict) (k k2 : String) (v : JValue) (hne : k ≠ k2) :
    List.lookup k (dictSet d k2 v) = List.lookup k d := by
  unfold dictSet
  have hb : (k == k2) = false := by simp [hne]
  split_ifs with hany
  · exact lookup_map_replace_other d k k2 v hne
  · rw [List.lookup_append]
    simp [List.lookup_cons, hb]

lemma lookup_dictUpdate (d m : Dict) (hm : (m.map Prod.fst).Nodup) (k : String) :
    List.lookup k (dictUpdate d m) = shallowMerge d m k := by
  induction m generalizing d with
  | nil => simp [dictUpdate, shallowMerge]
  | cons a t ih =>
    obtain ⟨k1, v1⟩ := a
    simp only [List.map_cons, List.nodup_cons] at hm
    obtain ⟨hk1, ht⟩ := hm
    have hstep : dictUpdate d ((k1, v1) :: t) = dictUpdate (dictSet d k1 v1) t := rfl
    rw [hstep, ih (dictSet d k1 v1) ht]
    by_cases hkk : k = k1
    · subst hkk
      have hnone : List.lookup k t = none := by
        rw [List.lookup_eq_none_iff]
        intro p hp
        simp only [bne_iff_ne]
        intro hc
        exact hk1 (by rw [hc]; exact List.mem_map_of_mem _ hp)
      simp [shallowMerge, hnone, List.lookup_cons, lookup_dictSet_same]
    · have hb : (k == k1) = false := by simp [hkk]
      cases hlt : List.lookup k t <;>
        simp [shallowMerge, hlt, List.lookup_cons, hb, lookup_dictSet_other d k k1 v1 hkk]

lemma reverse_map_sound (x : PyClass) (y : String)
    (h : List.lookup x reverse_map = some y) : List.lookup y CONTROLLERS = some x := by
  cases x with
  | RandomController =>
    have hx : List.lookup PyClass.RandomController reverse_map = some "random" := rfl
    rw [hx] at h
    obtain rfl := Option.some.inj h
    rfl
  | KeyboardController =>
    have hx : List.lookup PyClass.KeyboardController reverse_map = some "keyboard" := rfl
    rw [hx] at h
    obtain rfl := Option.some.inj h
    rfl
  | TabularController =>
    have hx : List.lookup PyClass.TabularController reverse_map = some "tabular" := rfl
    rw [hx] at h
    obtain rfl := Option.some.inj h
    rfl
  | Subclass p n =>
    have hx : List.lookup (PyClass.Subclass p n) reverse_map = none := rfl
    rw [hx] at h
    exact Option.noConfusion h

lemma isAlpha_D : Char.isAlpha 'D' = true := rfl

lemma isAlpha_C : Char.isAlpha 'C' = true := rfl

lemma from_string_cont (o : OutputType) (v : Nat) (hodd : v % 2 = 1) :
    from_string (String.mk ('C' :: outputs_to_string o :: natDigits v)) =
      Except.ok { inputs := InputType.CONTINUOUS, outputs := o, vision := v } := by
  obtain ⟨hne, hdig, hval⟩ := natDigits_spec v
  have hlen : 0 < (natDigits v).length := List.length_pos.mpr hne
  cases o <;>
    simp [from_string, string_data_mk, outputs_to_string, parseIO, isAlpha_D, isAlpha_C,
      string_to_input, string_to_output, hdig, hval, hodd, hlen]

/-- C1: the claim says each one-letter shorthand code parses successfully;
on the code, indexing robot[1] on a one-character string raises IndexError
before any shorthand decoding happens, so from_string on the bare shorthand
letters D, H and C fails with IndexError instead of succeeding. -/
theorem C1_single_letter_shorthand_raises_index_error :
    from_string "D" = Except.error PyError.indexError ∧
    from_string "H" = Except.error PyError.indexError ∧
    from_string "C" = Except.error PyError.indexError := by decide

/-- C2: the claim says a CONTINUOUS-input code with trailing digits sets
vision to their value and errors exactly on even values; on the code the
chained comparison ix < len(robot) > 2 is false for the two-character codes
C9 and C4, so C9 keeps the default vision 15 instead of 9 and C4 succeeds
instead of raising the even-vision error. Codes of length at least three,
such as C11 and CC4, behave as the claim describes. -/
theorem C2_two_char_continuous_code_ignores_vision :
    from_string "C9" =
      Except.ok { inputs := InputType.CONTINUOUS, outputs := OutputType.CONTINUOUS, vision := 15 } ∧
    from_string "C4" =
      Except.ok { inputs := InputType.CONTINUOUS, outputs := OutputType.CONTINUOUS, vision := 15 } ∧
    from_string "C11" =
      Except.ok { inputs := InputType.CONTINUOUS, outputs := OutputType.CONTINUOUS, vision := 11 } ∧
    from_string "CC4" = Except.error PyError.valueErrorEvenVision := by decide

/-- C3 counterexample: a valid BuildData with an odd vision but a
non-default control value does not round-trip under full equality, because
from_string always returns the default control fields. -/
theorem C3_roundtrip_counterexample :
    from_string
      (to_string { inputs := InputType.CONTINUOUS, outputs := OutputType.CONTINUOUS, vision := 9, control := "tabular" }) ≠
    Except.ok { inputs := InputType.CONTINUOUS, outputs := OutputType.CONTINUOUS, vision := 9, control := "tabular" } := by
  decide

/-- C3 (amended): for every valid BuildData b (no hybrid pair, vision kept
at its default for DISCRETE inputs, odd vision), from_string after to_string
reproduces the inputs, outputs and vision of b, with the control fields at
their defaults; and to_string always emits the explicit two-letter type code
followed by the vision digits exactly when inputs is CONTINUOUS. -/
theorem C3_roundtrip_amended (b : BuildData)
    (hhybrid : ¬(b.inputs = InputType.DISCRETE ∧ b.outputs = OutputType.CONTINUOUS))
    (hdisc : b.inputs = InputType.DISCRETE → b.vision = 15)
    (hodd : b.vision % 2 = 1) :
    from_string (to_string b) =
      Except.ok { inputs := b.inputs, outputs := b.outputs, vision := b.vision } ∧
    (to_string b).data = [inputs_to_string b.inputs, outputs_to_string b.outputs] ++
      (if b.inputs = InputType.CONTINUOUS then natDigits b.vision else []) := by
  obtain ⟨bi, bo, bv, bc, bcd⟩ := b
  cases bi with
  | DISCRETE =>
    cases bo with
    | CONTINUOUS => exact absurd ⟨rfl, rfl⟩ hhybrid
    | DISCRETE =>
      have hv : bv = 15 := hdisc rfl
      subst hv
      refine ⟨?_, by simp [to_string, inputs_to_string, outputs_to_string]⟩
      have hts :
          to_string { inputs := InputType.DISCRETE, outputs := OutputType.DISCRETE, vision := 15, control := bc, control_data := bcd } =
          String.mk ['D', 'D'] := rfl
      rw [hts]
      exact (by decide :
        from_string (String.mk ['D', 'D']) =
          Except.ok { inputs := InputType.DISCRETE, outputs := OutputType.DISCRETE, vision := 15 })
  | CONTINUOUS =>
    refine ⟨?_, by cases bo <;> simp [to_string, inputs_to_string, outputs_to_string]⟩
    have hts :
        to_string { inputs := InputType.CONTINUOUS, outputs := bo, vision := bv, control := bc, control_data := bcd } =
        String.mk ('C' :: outputs_to_string bo :: natDigits bv) := by
      cases bo <;> simp [to_string, inputs_to_string, outputs_to_string]
    rw [hts]
    exact from_string_cont bo bv hodd

/-- A sample valid BuildData used by the C3 witness. -/
def b3 : BuildData :=
  { inputs := InputType.CONTINUOUS, outputs := OutputType.DISCRETE, vision := 9 }

/-- C3 witness: the amended round-trip theorem applied at a concrete valid
BuildData with CONTINUOUS inputs and vision 9. -/
theorem C3_roundtrip_amended_witness :
    (¬(b3.inputs = InputType.DISCRETE ∧ b3.outputs = OutputType.CONTINUOUS)) ∧
    (b3.inputs = InputType.DISCRETE → b3.vision = 15) ∧ b3.vision % 2 = 1 ∧
    (from_string (to_string b3) =
        Except.ok { inputs := b3.inputs, outputs := b3.outputs, vision := b3.vision } ∧
      (to_string b3).data = [inputs_to_string b3.inputs, outputs_to_string b3.outputs] ++
        (if b3.inputs = InputType.CONTINUOUS then natDigits b3.vision else [])) :=
  ⟨by decide, by decide, by decide,
    C3_roundtrip_amended b3 (by decide) (by decide) (by decide)⟩

/-- C8: the pair code DC raises the hybrid-mode ValueError while CD parses
to CONTINUOUS inputs and DISCRETE outputs with the default vision. -/
theorem C8_dc_rejected_cd_accepted :
    from_string "DC" = Except.error PyError.valueErrorHybrid ∧
    from_string "CD" =
      Except.ok { inputs := InputType.CONTINUOUS, outputs := OutputType.DISCRETE, vision := 15 } := by
  decide

/-- C9: every code with a decoded DISCRETE input type and trailing digits
parses successfully with the digits silently ignored: for any nonempty digit
string ds, both the shorthand form D followed by ds and the pair form DD
followed by ds return the default BuildData with vision 15, with no
even-vision validation (ds may denote an even number). -/
theorem C9_discrete_input_ignores_digits (ds : List Char)
    (hne : ds ≠ []) (hdig : ds.all Char.isDigit = true) :
    from_string (String.mk ('D' :: ds)) = Except.ok {} ∧
    from_string (String.mk ('D' :: 'D' :: ds)) = Except.ok {} := by
  constructor
  · cases ds with
    | nil => exact absurd rfl hne
    | cons d t =>
      simp only [List.all_cons, Bool.and_eq_true] at hdig
      obtain ⟨hd, ht⟩ := hdig
      have halpha : d.isAlpha = false := isDigit_not_isAlpha d hd
      simp [from_string, string_data_mk, parseIO, hd, ht, halpha]
  · simp [from_string, string_data_mk, parseIO, isAlpha_D, hdig,
      string_to_input, string_to_output]

/-- C9 witness: the theorem applied to the digit string 4, covering the
even-digit codes D4 and DD4. -/
theorem C9_discrete_input_ignores_digits_witness :
    ((['4'] : List Char) ≠ [] ∧ List.all ['4'] Char.isDigit = true) ∧
    (from_string (String.mk ['D', '4']) = Except.ok {} ∧
      from_string (String.mk ['D', 'D', '4']) = Except.ok {}) :=
  ⟨⟨by decide, by decide⟩, C9_discrete_input_ignores_digits ['4'] (by decide) (by decide)⟩

/-- C6: a robot at rest (zero velocity and acceleration) given the zero
action keeps its position: next_position returns pos unchanged for any dt. -/
theorem C6_rest_zero_action_position_unchanged (r : Robot) (dt : ℚ)
    (hvel : r.vel = Vec.null) (_hacc : r.acc = Vec.null) :
    (Robot.next_position r ⟨0, 0⟩ dt).2 = r.pos := by
  unfold Robot.next_position
  rw [hvel]
  norm_num [vec_smul_def, vec_add_def, Vec.sqLength, Vec.null, ACCELERATION_SCALE]

/-- C6 witness: the rest theorem applied to a concrete robot at rest with a
concrete dt. -/
theorem C6_rest_zero_action_position_unchanged_witness :
    (Robot.mk {} ⟨2, 3⟩ (2, 3) Vec.null Vec.null 0).vel = Vec.null ∧
    (Robot.mk {} ⟨2, 3⟩ (2, 3) Vec.null Vec.null 0).acc = Vec.null ∧
    (Robot.next_position (Robot.mk {} ⟨2, 3⟩ (2, 3) Vec.null Vec.null 0) ⟨0, 0⟩ 7).2 =
      (Robot.mk {} ⟨2, 3⟩ (2, 3) Vec.null Vec.null 0).pos :=
  ⟨rfl, rfl, C6_rest_zero_action_position_unchanged _ 7 rfl rfl⟩

/-- C7: for every robot state, action and dt, next_position updates only acc
and vel (pos, prev_cell, reward and the shared BuildData are unchanged on
the instance): acc becomes ACCELERATION_SCALE * action, vel becomes the
damped integration vel * (1 - INERTIAL_LOSS * dt) + dt * acc, snapped to the
null vector when its magnitude is below min(0.01, ACCELERATION_SCALE / 2)
(stated on squares), and the returned proposed position is pos + dt * vel
for the updated vel. -/
theorem C7_next_position_frame_effect (r : Robot) (action : Vec) (dt : ℚ) :
    (Robot.next_position r action dt).1.data = r.data ∧
    (Robot.next_position r action dt).1.pos = r.pos ∧
    (Robot.next_position r action dt).1.prev_cell = r.prev_cell ∧
    (Robot.next_position r action dt).1.reward = r.reward ∧
    (Robot.next_position r action dt).1.acc = ACCELERATION_SCALE • action ∧
    (Robot.next_position r action dt).1.vel =
      (if ((1 - INERTIAL_LOSS * dt) • r.vel + dt • (ACCELERATION_SCALE • action)).sqLength <
          (min (1 / 100) (ACCELERATION_SCALE / 2)) ^ 2 then Vec.null
        else (1 - INERTIAL_LOSS * dt) • r.vel + dt • (ACCELERATION_SCALE • action)) ∧
    (Robot.next_position r action dt).2 =
      r.pos + dt •
        (if ((1 - INERTIAL_LOSS * dt) • r.vel + dt • (ACCELERATION_SCALE • action)).sqLength <
            (min (1 / 100) (ACCELERATION_SCALE / 2)) ^ 2 then Vec.null
          else (1 - INERTIAL_LOSS * dt) • r.vel + dt • (ACCELERATION_SCALE • action)) :=
  ⟨rfl, rfl, rfl, rfl, rfl, rfl, rfl⟩

/-- C4: the claim says save with the infos argument omitted succeeds; on the
code, controller.infos.copy() followed by update(None) raises TypeError for
every registered controller, so save never reaches the infos entry. -/
theorem C4_save_none_infos_type_error (c : Controller) (path : Path)
    (hreg : (List.lookup c.cls reverse_map).isSome = true) :
    save c path none = Except.error PyError.typeError := by
  obtain ⟨cc, hcc⟩ := Option.isSome_iff_exists.mp hreg
  simp [save, hcc]

/-- C4 witness: saving a registered RandomController with infos omitted. -/
theorem C4_save_none_infos_type_error_witness :
    (List.lookup (Controller.mk PyClass.RandomController [] []).cls reverse_map).isSome = true ∧
    save (Controller.mk PyClass.RandomController [] []) (Path.mk "model" ".bin") none =
      Except.error PyError.typeError :=
  ⟨by decide, C4_save_none_infos_type_error _ _ (by decide)⟩

/-- C5: for every registered controller c and caller dict m (unique keys,
kind-specific payload entries distinct from the two generic names), save
followed by load succeeds and the reconstructed controller carries infos
equal to c.infos shallowly merged with m, with the values of m taking
precedence on conflicting keys. -/
theorem C5_save_load_preserves_merged_infos (c : Controller) (path : Path) (m : Dict)
    (hreg : (List.lookup c.cls reverse_map).isSome = true)
    (hm : (m.map Prod.fst).Nodup)
    (hpayload : ∀ p ∈ c.payload, p.1 ≠ "controller_class" ∧ p.1 ≠ "infos") :
    ∃ pz a c2, save c path (some m) = Except.ok (pz, a) ∧ load a = Except.ok c2 ∧
      ∀ k, List.lookup k c2.infos = shallowMerge c.infos m k := by
  obtain ⟨cc, hcc⟩ := Option.isSome_iff_exists.mp hreg
  have hsave : save c path (some m) =
      Except.ok (if path.suffix ≠ ".zip" then { path with suffix := ".zip" } else path,
        ("controller_class", Entry.text cc) ::
          (c.payload.map (fun p => (p.1, Entry.text p.2)) ++
            [("infos", Entry.json (dictUpdate c.infos m))])) := by
    simp [save, hcc, save_to_archive]
  have hPnone : List.lookup "controller_class"
      (c.payload.map (fun p => (p.1, Entry.text p.2))).reverse = none := by
    rw [List.lookup_eq_none_iff]
    intro p hp
    rw [List.mem_reverse] at hp
    obtain ⟨q, hq, rfl⟩ := List.mem_map.mp hp
    simpa using ((hpayload q hq).1.symm)
  have hread1 : archiveRead
      (("controller_class", Entry.text cc) ::
        (c.payload.map (fun p => (p.1, Entry.text p.2)) ++
          [("infos", Entry.json (dictUpdate c.infos m))])) "controller_class" =
      some (Entry.text cc) := by
    simp [archiveRead, List.lookup_cons, List.lookup_append, hPnone]
  have hread2 : archiveRead
      (("controller_class", Entry.text cc) ::
        (c.payload.map (fun p => (p.1, Entry.text p.2)) ++
          [("infos", Entry.json (dictUpdate c.infos m))])) "infos" =
      some (Entry.json (dictUpdate c.infos m)) := by
    simp [archiveRead, List.lookup_cons]
  have hcls : List.lookup cc CONTROLLERS = some c.cls := reverse_map_sound c.cls cc hcc
  refine ⟨_, _,
    { load_from_archive c.cls
        (("controller_class", Entry.text cc) ::
          (c.payload.map (fun p => (p.1, Entry.text p.2)) ++
            [("infos", Entry.json (dictUpdate c.infos m))])) with
      infos := dictUpdate c.infos m },
    hsave, ?_, ?_⟩
  · simp [load, hread1, hread2, hcls]
  · exact fun k => lookup_dictUpdate c.infos m hm k

/-- C5 witness: a registered TabularController with one payload entry, an
infos dict with a conflicting key, and a caller dict overriding it. -/
theorem C5_save_load_preserves_merged_infos_witness :
    ((List.lookup (Controller.mk PyClass.TabularController
        [("algo", "tab"), ("seed", "1")] [("weights", "w")]).cls reverse_map).isSome = true ∧
      (([("algo", "q"), ("note", "x")] : Dict).map Prod.fst).Nodup ∧
      (∀ p ∈ (Controller.mk PyClass.TabularController
        [("algo", "tab"), ("seed", "1")] [("weights", "w")]).payload,
        p.1 ≠ "controller_class" ∧ p.1 ≠ "infos")) ∧
    (∃ pz a c2, save (Controller.mk PyClass.TabularController
        [("algo", "tab"), ("seed", "1")] [("weights", "w")])
        (Path.mk "model" ".bin") (some [("algo", "q"), ("note", "x")]) =
        Except.ok (pz, a) ∧ load a = Except.ok c2 ∧
      ∀ k, List.lookup k c2.infos = shallowMerge
        (Controller.mk PyClass.TabularController
          [("algo", "tab"), ("seed", "1")] [("weights", "w")]).infos
        [("algo", "q"), ("note", "x")] k) :=
  ⟨⟨by decide, by decide, by decide⟩,
    C5_save_load_preserves_merged_infos _ _ _ (by decide) (by decide) (by decide)⟩

/-- C10: a controller whose concrete class is a strict subclass of a
registered controller class, and hence not itself a key of the reverse
registry, makes save fail with the unknown-controller-type AssertionError
instead of reusing the kind name of the registered ancestor. -/
theorem C10_save_strict_subclass_assertion (c : Controller) (path : Path)
    (infos : Option Dict) (q : PyClass)
    (hsub : strictSubclassOf c.cls q = true)
    (_hq : (CONTROLLERS.map Prod.snd).contains q = true) :
    save c path infos = Except.error PyError.assertionError := by
  obtain ⟨cls, ci, cp⟩ := c
  cases cls with
  | RandomController => simp [strictSubclassOf] at hsub
  | KeyboardController => simp [strictSubclassOf] at hsub
  | TabularController => simp [strictSubclassOf] at hsub
  | Subclass p n =>
    have hx : List.lookup (PyClass.Subclass p n) reverse_map = none := rfl
    simp [save, hx]

/-- C10 witness: saving an instance of a strict subclass of the registered
TabularController class. -/
theorem C10_save_strict_subclass_assertion_witness :
    (strictSubclassOf (PyClass.Subclass PyClass.TabularController "MyTabular")
        PyClass.TabularController = true ∧
      (CONTROLLERS.map Prod.snd).contains PyClass.TabularController = true) ∧
    save (Controller.mk (PyClass.Subclass PyClass.TabularController "MyTabular") [] [])
        (Path.mk "model" ".zip") none = Except.error PyError.assertionError :=
  ⟨⟨by decide, by decide⟩,
    C10_save_strict_subclass_assertion _ _ _ PyClass.TabularController (by decide) (by decide)⟩

end Amaze
